import Mathlib

/-!
Shallow embedding of the requester.js permission/notification library
(src/requester.js) and its companion service worker (src/unnamed/part_000).

Handler function values are modelled as opaque numeric identifiers (`Nat`):
the embedding never calls them, it only records which ones the code would
invoke or transmit.  Side effects (error popups, console warnings, hook
invocations, platform calls, cross-context messages) are recorded in an
explicit effect list.  Fallible platform calls are oracles of type
`Except String _`; a thrown JavaScript exception that would escape a
function to its caller is an `Except.error` of the embedded function.
-/

namespace Requester

/-- JavaScript `Map` keyed by strings, embedded as an association list.
`get`, `set`, `delete` follow `Map` semantics. -/
def mapGet {α : Type} (m : List (String × α)) (k : String) : Option α :=
  match m with
  | [] => none
  | (k2, v) :: rest => if k2 == k then some v else mapGet rest k

def mapSet {α : Type} (m : List (String × α)) (k : String) (v : α) :
    List (String × α) :=
  match m with
  | [] => [(k, v)]
  | (k2, v2) :: rest =>
    if k2 == k then (k, v) :: rest else (k2, v2) :: mapSet rest k v

def mapErase {α : Type} (m : List (String × α)) (k : String) :
    List (String × α) :=
  m.filter (fun p => !(p.1 == k))

theorem mapGet_set_self {α : Type} (m : List (String × α)) (k : String) (v : α) :
    mapGet (mapSet m k v) k = some v := by
  induction m with
  | nil => simp [mapGet, mapSet]
  | cons p rest ih =>
    obtain ⟨k2, v2⟩ := p
    by_cases h : k2 == k
    · simp [mapSet, mapGet, h]
    · simp [mapSet, mapGet, h, ih]

theorem mapGet_erase_self {α : Type} (m : List (String × α)) (k : String) :
    mapGet (mapErase m k) k = none := by
  induction m with
  | nil => rfl
  | cons p rest ih =>
    obtain ⟨k2, v2⟩ := p
    by_cases h : k2 == k
    · simpa [mapErase, List.filter_cons, h] using ih
    · simpa [mapErase, List.filter_cons, h, mapGet] using ih

/-- A button entry of the `callbackData` object built at requester.js:251-258
and stored both in the foreground `notificationCallbacks` map and in the
service worker's `notificationCallbacks` map (shipped by `postMessage`).
The object literal has fields `action` and `onClick`; it never has a
`callback` field, but the service worker's click handler reads one, so the
embedding models all three dynamic field reads (`none` = absent/undefined). -/
structure NotifButton where
  action : String
  onClick : Option Nat
  callback : Option Nat
deriving Repr, DecidableEq

/-- The `callbackData` record (requester.js:251-258): `buttons` array plus
optional `onClick` / `onClose` handlers.  `buttons` is `Option` because the
consumers guard the field (`callbacks.buttons?.find`, `callbacks.buttons &&`). -/
structure NotifCallbacks where
  buttons : Option (List NotifButton)
  onClick : Option Nat
  onClose : Option Nat
deriving Repr, DecidableEq

/-- Both the foreground `notificationCallbacks` map (requester.js:38) and the
service worker's `notificationCallbacks` map (part_000:7). -/
abbrev CallbackStore := List (String × NotifCallbacks)

inductive FgMsgType where
  | actionClicked
  | clicked
  | closed
  | other
deriving Repr, DecidableEq

/-- `event.data` of a message received from the service worker
(requester.js:60): `{ type, tag, action }`, `action` possibly undefined. -/
structure FgMessage where
  type : FgMsgType
  tag : String
  action : Option String
deriving Repr, DecidableEq

/-- The foreground service-worker message listener (requester.js:57-86).
Returns the updated registry and the list of handler values the code invokes,
in invocation order. -/
def foregroundDispatch (reg : CallbackStore) (msg : FgMessage) :
    CallbackStore × List Nat :=
  match mapGet reg msg.tag with
  | none => (reg, [])
  | some cbs =>
    match msg.type with
    | .actionClicked =>
      let button : Option NotifButton :=
        match cbs.buttons with
        | none => none
        | some bs =>
          bs.find? (fun b =>
            match msg.action with
            | some a => b.action == a
            | none => false)
      match button with
      | some b => (reg, b.onClick.toList)
      | none => (reg, [])
    | .clicked => (reg, cbs.onClick.toList)
    | .closed => (mapErase reg msg.tag, cbs.onClose.toList)
    | .other => (reg, [])

/-- JavaScript `||` fallback on an optional string field: both `undefined` and
the empty string are falsy (`options.tag || ...`, `btn.action || ...`). -/
def jsStrOr (o : Option String) (d : String) : String :=
  match o with
  | some s => if s == "" then d else s
  | none => d

/-- One entry of the caller-supplied `options.buttons` array
(fields read at requester.js:244-257). -/
structure OptButton where
  action : Option String
  label : Option String
  title : Option String
  icon : Option String
  onClick : Option Nat
deriving Repr, DecidableEq

/-- Fields of the caller-supplied `options` argument of `sendNotification`
that the notification paths read. -/
structure NotifOptions where
  tag : Option String
  badge : Option String
  image : Option String
  data : Option Nat
  requireInteraction : Option Bool
  silent : Option Bool
  vibrate : Option Nat
  buttons : Option (List OptButton)
  onClick : Option Nat
  onClose : Option Nat
  onError : Option Nat
deriving Repr, DecidableEq

/-- A platform action descriptor built at requester.js:244-248. -/
structure ActionDescriptor where
  action : String
  title : String
  icon : Option String
deriving Repr, DecidableEq

/-- The `notifOptions` object passed to `showNotification`
(requester.js:230-248). -/
structure SwNotifOptions where
  body : String
  icon : Option String
  tag : String
  badge : Option String
  image : Option String
  data : Option Nat
  requireInteraction : Option Bool
  silent : Option Bool
  vibrate : Option Nat
  actions : Option (List ActionDescriptor)
deriving Repr, DecidableEq

/-- The `notifOptions` object passed to `new Notification`
(requester.js:288-306).  The copy loop skips the keys in
`nonNotificationProps` (among them `buttons`) and the code afterwards
explicitly deletes `actions` and `buttons`, so those two fields are always
absent; the fields exist in the embedding so that their removal is a
statable, non-vacuous fact. -/
structure BasicNotifOptions where
  body : String
  icon : Option String
  tag : Option String
  badge : Option String
  image : Option String
  data : Option Nat
  requireInteraction : Option Bool
  silent : Option Bool
  vibrate : Option Nat
  buttons : Option (List OptButton)
  actions : Option (List ActionDescriptor)
deriving Repr, DecidableEq

/-- The library settings fields relevant to the modelled operations
(requester.js:8-29).  Hooks are optional handler ids. -/
structure Settings where
  showErrorPopup : Bool
  onAccept : Option Nat
  onDecline : Option Nat
  onError : Option Nat
  useServiceWorker : Bool
deriving Repr, DecidableEq

/-- Foreground mutable state touched by the notification paths:
settings, whether `serviceWorkerRegistration` is non-null, whether its
`active` worker is non-null, and the `notificationCallbacks` registry. -/
structure FgState where
  settings : Settings
  swRegistered : Bool
  swActive : Bool
  registry : CallbackStore
deriving Repr, DecidableEq

/-- Observable side effects of the embedded operations, in program order. -/
inductive Effect where
  | showErrorPopup (msg : String)
  | consoleWarn
  | hookCall (h : Nat)
  | postMessage (tag : String) (callbacks : NotifCallbacks)
  | swShowNotification (title : String) (opts : SwNotifOptions)
  | basicNotification (title : String) (opts : BasicNotifOptions)
  | trackStop (t : Nat)
deriving Repr, DecidableEq

/-- `_showError` (requester.js:119-133): a popup effect, suppressed when
`settings.showErrorPopup` is false. -/
def showErrorEff (s : Settings) (msg : String) : List Effect :=
  if s.showErrorPopup then [Effect.showErrorPopup msg] else []

/-- Invocation of an optional hook. -/
def hookList (o : Option Nat) : List Effect :=
  o.toList.map Effect.hookCall

/-- The hook-routing part of `_handleResponse` (requester.js:139-151):
on success the global accept hook, otherwise the global decline hook;
additionally the global error hook whenever a truthy error was passed. -/
def handleResponseEffects (s : Settings) (success : Bool) (errorPresent : Bool) :
    List Effect :=
  (if success then hookList s.onAccept else hookList s.onDecline) ++
    (if errorPresent then hookList s.onError else [])

/-- The platform calls `sendNotification` can make, as outcome oracles.
`swPost` is `registration.active.postMessage`, `swShow` is
`registration.showNotification`, `basicNew` is `new Notification`. -/
structure NotifPlatform where
  swPost : Except String Unit
  swShow : Except String Unit
  basicNew : Except String Unit

/-- Value returned by a successful `sendNotification`. -/
inductive SendRet where
  | swRet (tag : String)
  | basicRet
deriving Repr, DecidableEq

/-- Result of a notification send: final foreground state, effects in
  order, and the JS return value (`none` models `null`). -/
structure SendOut where
  st : FgState
  effects : List Effect
  ret : Option SendRet
deriving Repr, DecidableEq

/-- The platform `actions` array built at requester.js:244-248. -/
def buildActions (buttons : List OptButton) : List ActionDescriptor :=
  buttons.enum.map (fun p =>
    { action := jsStrOr p.2.action ("action-" ++ toString p.1)
      title := jsStrOr p.2.label (jsStrOr p.2.title ("Button " ++ toString (p.1 + 1)))
      icon := p.2.icon })

/-- The `callbackData` object built at requester.js:251-258.  Note that the
object literal copies the caller's handler values (`onClick: btn.onClick`,
`onClick: options.onClick`, `onClose: options.onClose`) and has no
`callback` field. -/
def buildCallbackData (buttons : List OptButton) (onClick onClose : Option Nat) :
    NotifCallbacks :=
  { buttons := some (buttons.enum.map (fun p =>
      { action := jsStrOr p.2.action ("action-" ++ toString p.1)
        onClick := p.2.onClick
        callback := none }))
    onClick := onClick
    onClose := onClose }

/-- The try-block body of `_sendServiceWorkerNotification`
(requester.js:227-273).  An `Except.error` is a thrown exception reaching
the catch, carrying the partial state and effects accumulated before the
throw (the registry insertion at line 260 precedes both fallible calls). -/
def swNotifTry (st : FgState) (pf : NotifPlatform) (now : Nat)
    (title text : String) (attachment : Option String) (options : NotifOptions) :
    Except (String × FgState × List Effect) SendOut :=
  let tag := jsStrOr options.tag ("notification-" ++ toString now)
  let hasB := (options.buttons.getD []).length != 0
  let opts : SwNotifOptions :=
    { body := text, icon := attachment, tag := tag, badge := options.badge
      image := options.image, data := options.data
      requireInteraction := options.requireInteraction, silent := options.silent
      vibrate := options.vibrate
      actions := if hasB then some (buildActions (options.buttons.getD [])) else none }
  if hasB then
    let cd := buildCallbackData (options.buttons.getD []) options.onClick options.onClose
    let st1 := { st with registry := mapSet st.registry tag cd }
    if !st.swActive then
      .error ("Cannot read properties of null", st1, [])
    else
      match pf.swPost with
      | .error e => .error (e, st1, [Effect.postMessage tag cd])
      | .ok _ =>
        match pf.swShow with
        | .error e =>
          .error (e, st1, [Effect.postMessage tag cd, Effect.swShowNotification title opts])
        | .ok _ =>
          .ok ⟨st1, [Effect.postMessage tag cd, Effect.swShowNotification title opts],
               some (.swRet tag)⟩
  else
    match pf.swShow with
    | .error e => .error (e, st, [Effect.swShowNotification title opts])
    | .ok _ => .ok ⟨st, [Effect.swShowNotification title opts], some (.swRet tag)⟩

/-- `_sendServiceWorkerNotification` (requester.js:226-281): the try body
with its catch, which shows an error popup, fires the call-site `onError`
hook and returns `null`. -/
def _sendServiceWorkerNotification (st : FgState) (pf : NotifPlatform) (now : Nat)
    (title text : String) (attachment : Option String) (options : NotifOptions) :
    Except String SendOut :=
  match swNotifTry st pf now title text attachment options with
  | .ok r => .ok r
  | .error (e, st1, effs) =>
    .ok ⟨st1,
         effs ++ showErrorEff st1.settings ("Failed to create notification: " ++ e) ++
           hookList options.onError,
         none⟩

/-- The `notifOptions` object built by `_sendBasicNotification`
(requester.js:288-306): `body`/`icon` plus every caller option key outside
`nonNotificationProps`, with `actions` and `buttons` deleted afterwards. -/
def basicNotifOptions (text : String) (attachment : Option String)
    (options : NotifOptions) : BasicNotifOptions :=
  { body := text, icon := attachment, tag := options.tag, badge := options.badge
    image := options.image, data := options.data
    requireInteraction := options.requireInteraction, silent := options.silent
    vibrate := options.vibrate, buttons := none, actions := none }

/-- `_sendBasicNotification` (requester.js:287-344): warn when buttons were
requested, attempt `new Notification`, and catch constructor failures by
showing the popup, firing the call-site `onError` hook and returning
`null`. -/
def _sendBasicNotification (st : FgState) (pf : NotifPlatform)
    (title text : String) (attachment : Option String) (options : NotifOptions) :
    Except String SendOut :=
  let warn := if (options.buttons.getD []).length != 0 then [Effect.consoleWarn] else []
  let attempt := warn ++ [Effect.basicNotification title (basicNotifOptions text attachment options)]
  match pf.basicNew with
  | .ok _ => .ok ⟨st, attempt, some .basicRet⟩
  | .error e =>
    .ok ⟨st,
         attempt ++ showErrorEff st.settings ("Failed to create notification: " ++ e) ++
           hookList options.onError,
         none⟩

/-- `sendNotification` (requester.js:195-220). -/
def sendNotification (st : FgState) (permission : String) (pf : NotifPlatform)
    (now : Nat) (title text : String) (attachment : Option String)
    (options : NotifOptions) : Except String SendOut :=
  if permission != "granted" then
    .ok ⟨st, showErrorEff st.settings "Notification permission not granted", none⟩
  else
    let hasB := (options.buttons.getD []).length != 0
    if hasB && !st.settings.useServiceWorker then
      match _sendBasicNotification st pf title text attachment { options with buttons := none } with
      | .ok r => .ok ⟨r.st, Effect.consoleWarn :: r.effects, r.ret⟩
      | .error e => .error e
    else if st.settings.useServiceWorker && st.swRegistered && hasB then
      _sendServiceWorkerNotification st pf now title text attachment options
    else
      _sendBasicNotification st pf title text attachment options

/-- The service worker's `message` listener (part_000:10-14): store the
received callbacks object under its tag. -/
def swStoreMessage (store : CallbackStore) (tag : String)
    (callbacks : NotifCallbacks) : CallbackStore :=
  mapSet store tag callbacks

/-- A message the service worker broadcasts to foreground contexts. -/
inductive SwOutMsg where
  | notificationActionClicked (tag action : String) (data : Option Nat)
  | notificationClicked (tag : String) (data : Option Nat)
  | notificationClosed (tag : String) (data : Option Nat)
deriving Repr, DecidableEq

/-- `clients.forEach(client => client.postMessage(m))`. -/
def broadcast (clients : List Nat) (m : SwOutMsg) : List (Nat × SwOutMsg) :=
  clients.map (fun c => (c, m))

/-- The message-emitting part of the service worker's `notificationclick`
listener (part_000:17-60).  `action` is `event.action`, which the platform
sets to the empty string for a main-body click; `action != ""` embeds the JS
truthiness test `if (action && ...)`.  Returns the messages sent, as
(client, message) pairs.  The window-focus behaviour (part_000:62-75) is
unconditional and not part of the message protocol, so it is not modelled. -/
def onNotificationClick (clients : List Nat) (store : CallbackStore)
    (tag action : String) (data : Option Nat) : List (Nat × SwOutMsg) :=
  match mapGet store tag with
  | none => []
  | some cbs =>
    if action != "" && cbs.buttons.isSome then
      match (cbs.buttons.getD []).find? (fun b => b.action == action) with
      | some b =>
        if b.callback.isSome then
          broadcast clients (.notificationActionClicked tag action data)
        else []
      | none => []
    else if cbs.onClick.isSome then
      broadcast clients (.notificationClicked tag data)
    else []

/-- Platform environment of `requestNotifications`: whether `Notification`
exists in `window`, and the outcome of `Notification.requestPermission()`. -/
structure NotifPermEnv where
  supported : Bool
  permission : Except String String

/-- `requestNotifications` (requester.js:160-185).  `cbA`/`cbD`/`cbE` are the
call-site `options.onAccept`/`onDecline`/`onError` hooks.  The whole body is
inside `try`/`catch`, so the outer `Except` never holds an error. -/
def requestNotifications (s : Settings) (cbA cbD cbE : Option Nat)
    (env : NotifPermEnv) : Except String (List Effect × Option String) :=
  if !env.supported then
    .ok (showErrorEff s "Notifications not supported in this browser" ++
           hookList cbD ++ handleResponseEffects s false true, none)
  else
    match env.permission with
    | .error e =>
      .ok (showErrorEff s ("Notification error: " ++ e) ++ hookList cbE ++
             handleResponseEffects s false true, none)
    | .ok p =>
      if p == "granted" then
        .ok (hookList cbA ++ handleResponseEffects s true false, some p)
      else
        .ok (showErrorEff s "Notification permission denied" ++ hookList cbD ++
               handleResponseEffects s false true, none)

/-- Platform environment of `requestBluetooth`: `navigator.bluetooth`
presence, the protocol/hostname prechecks, and the outcome of
`navigator.bluetooth.requestDevice` (a device id or a thrown error). -/
structure BtEnv where
  bluetoothSupported : Bool
  isHttps : Bool
  isLocalhost : Bool
  requestDevice : Except String Nat

/-- The try-block body of `requestBluetooth` (requester.js:752-785).
An `Except.error` is the platform exception reaching the catch. -/
def btTry (s : Settings) (cbA cbD : Option Nat) (env : BtEnv) :
    Except String (List Effect × Option Nat) :=
  if !env.bluetoothSupported then
    .ok (showErrorEff s "Web Bluetooth not supported in this browser" ++
           hookList cbD ++ handleResponseEffects s false true, none)
  else if !env.isHttps && !env.isLocalhost then
    .ok (showErrorEff s "Web Bluetooth requires HTTPS" ++ hookList cbD ++
           handleResponseEffects s false true, none)
  else
    match env.requestDevice with
    | .error e => .error e
    | .ok d => .ok (hookList cbA ++ handleResponseEffects s true false, some d)

/-- `String.prototype.includes`: whether `pat` occurs as a contiguous
substring. -/
def charsContain (pat : List Char) : List Char → Bool
  | [] => pat.isEmpty
  | c :: rest => pat.isPrefixOf (c :: rest) || charsContain pat rest

/-- `requestBluetooth` (requester.js:751-794): the try body plus the catch at
lines 786-793, which rewrites permissions-policy errors, shows the popup,
fires the call-site decline hook and routes through `_handleResponse`. -/
def requestBluetooth (s : Settings) (cbA cbD : Option Nat) (env : BtEnv) :
    Except String (List Effect × Option Nat) :=
  match btTry s cbA cbD env with
  | .ok r => .ok r
  | .error e =>
    let msg :=
      if charsContain "permissions policy".toList e.toList then
        "Bluetooth access blocked by permissions policy. This requires HTTPS and proper permissions."
      else "Bluetooth access denied: " ++ e
    .ok (showErrorEff s msg ++ hookList cbD ++ handleResponseEffects s false true, none)

/-- Unreserved characters of JavaScript `encodeURIComponent`
(by char code): `A-Z a-z 0-9 - _ . ! ~ * ' ( )`. -/
def isUnreservedCode (n : Nat) : Bool :=
  (65 ≤ n && n ≤ 90) || (97 ≤ n && n ≤ 122) || (48 ≤ n && n ≤ 57) ||
    n == 45 || n == 95 || n == 46 || n == 33 || n == 126 || n == 42 ||
    n == 39 || n == 40 || n == 41

/-- UTF-8 bytes of a code point. -/
def utf8BytesOfCode (n : Nat) : List Nat :=
  if n < 128 then [n]
  else if n < 2048 then [192 + n / 64, 128 + n % 64]
  else if n < 65536 then [224 + n / 4096, 128 + (n / 64) % 64, 128 + n % 64]
  else [240 + n / 262144, 128 + (n / 4096) % 64, 128 + (n / 64) % 64, 128 + n % 64]

def hexDigitChar (n : Nat) : Char :=
  Char.ofNat (if n < 10 then 48 + n else 55 + n)

def percentByte (b : Nat) : String :=
  "%" ++ String.singleton (hexDigitChar (b / 16)) ++ String.singleton (hexDigitChar (b % 16))

/-- JavaScript `encodeURIComponent`: unreserved characters pass through,
every other character is percent-encoded byte-wise in UTF-8. -/
def encodeURIComponent (s : String) : String :=
  String.join (s.toList.map (fun c =>
    if isUnreservedCode c.toNat then String.singleton c
    else String.join ((utf8BytesOfCode c.toNat).map percentByte)))

/-- The destructured parameters of `openMailto` (requester.js:726), each
defaulting to the empty string.  The source field `to` is a Lean keyword,
so it is named `toAddr` here. -/
structure MailtoParams where
  toAddr : String := ""
  cc : String := ""
  bcc : String := ""
  subject : String := ""
  body : String := ""
deriving Repr, DecidableEq

/-- The `mailtoLink` string built by `openMailto` (requester.js:728-734). -/
def buildMailto (p : MailtoParams) : String :=
  let ps : List String :=
    (if p.cc != "" then ["cc=" ++ encodeURIComponent p.cc] else []) ++
    (if p.bcc != "" then ["bcc=" ++ encodeURIComponent p.bcc] else []) ++
    (if p.subject != "" then ["subject=" ++ encodeURIComponent p.subject] else []) ++
    (if p.body != "" then ["body=" ++ encodeURIComponent p.body] else [])
  "mailto:" ++ p.toAddr ++ (if ps.length != 0 then "?" ++ String.intercalate "&" ps else "")

/-- Modelled from the spec (§6): a `mailto:` URI with percent-encoded
`cc`, `bcc`, `subject`, `body` query parameters, omitting any empty field,
joined with `&`, prefixed `?` only if at least one parameter is present.
Written from the spec's words to be compared against `buildMailto`. -/
def mailtoSpec (p : MailtoParams) : String :=
  let fields := [("cc", p.cc), ("bcc", p.bcc), ("subject", p.subject), ("body", p.body)]
  let ps := (fields.filter (fun f => f.2 != "")).map
    (fun f => f.1 ++ "=" ++ encodeURIComponent f.2)
  "mailto:" ++ p.toAddr ++ (if ps.isEmpty then "" else "?" ++ String.intercalate "&" ps)

/-- `this.activeStreams` (requester.js:31-35): each held stream is the list
of its tracks (track ids). -/
structure ActiveStreams where
  camera : Option (List Nat)
  microphone : Option (List Nat)
  screen : Option (List Nat)
deriving Repr, DecidableEq

/-- `stopCamera` (requester.js:384-389): stop every track of the held stream
and clear the reference; nothing when no stream is held. -/
def stopCamera (a : ActiveStreams) : ActiveStreams × List Effect :=
  match a.camera with
  | some ts => ({ a with camera := none }, ts.map Effect.trackStop)
  | none => (a, [])

/-- `stopMicrophone` (requester.js:429-434). -/
def stopMicrophone (a : ActiveStreams) : ActiveStreams × List Effect :=
  match a.microphone with
  | some ts => ({ a with microphone := none }, ts.map Effect.trackStop)
  | none => (a, [])

/-- `stopScreenCapture` (requester.js:568-573). -/
def stopScreenCapture (a : ActiveStreams) : ActiveStreams × List Effect :=
  match a.screen with
  | some ts => ({ a with screen := none }, ts.map Effect.trackStop)
  | none => (a, [])

/-- C1: evidence of a code bug.  The background dispatcher's store holds
exactly the descriptor the foreground builds for one button with action
"ok" (whose `onClick` marker is present), and a platform click event for
that notification carries actionId "ok" matching that known button; the
claim requires a NOTIFICATION_ACTION_CLICKED broadcast, but the
`notificationclick` handler emits no message at all, because it requires a
truthy `callback` field on the matched button while the transmitted button
objects only ever carry `action` and `onClick` fields. -/
theorem sw_action_click_emits_no_message :
    onNotificationClick [0]
        (swStoreMessage [] "n1"
          (buildCallbackData [⟨some "ok", none, none, none, some 5⟩] none none))
        "n1" "ok" none = [] ∧
    (buildCallbackData [⟨some "ok", none, none, none, some 5⟩] none none).buttons =
      some [⟨"ok", some 5, none⟩] :=
  ⟨rfl, rfl⟩

/-- C2: evidence of a code bug.  Sending an interactive notification through
the service-worker path with a button click handler (handler value 7), a
body click handler (8) and a close handler (9) produces a
STORE_NOTIFICATION_CALLBACKS postMessage whose payload carries those very
handler values — not mere action ids and presence markers. -/
theorem store_message_contains_handler_values :
    ∃ r, sendNotification ⟨⟨true, none, none, none, true⟩, true, true, []⟩ "granted"
        ⟨.ok (), .ok (), .ok ()⟩ 0 "t" "m" none
        ⟨none, none, none, none, none, none, none,
         some [⟨some "ok", none, none, none, some 7⟩], some 8, some 9, none⟩ = .ok r ∧
      Effect.postMessage "notification-0"
          ⟨some [⟨"ok", some 7, none⟩], some 8, some 9⟩ ∈ r.effects ∧
      r.ret = some (.swRet "notification-0") :=
  ⟨_, rfl, by decide, rfl⟩

/-- C3: registering a record for tag `t` and then dispatching a closed event
for `t` invokes `onClose` when present and unconditionally removes the
record, after which dispatching any event for `t` is a no-op. -/
theorem closed_dispatch_removes_record (reg : CallbackStore) (t : String)
    (r : NotifCallbacks) (ty : FgMsgType) (act : Option String) :
    foregroundDispatch (mapSet reg t r) ⟨.closed, t, none⟩ =
      (mapErase (mapSet reg t r) t, r.onClose.toList) ∧
    foregroundDispatch (mapErase (mapSet reg t r) t) ⟨ty, t, act⟩ =
      (mapErase (mapSet reg t r) t, []) := by
  constructor
  · simp [foregroundDispatch, mapGet_set_self]
  · simp [foregroundDispatch, mapGet_erase_self]

/-- C4: foreground dispatch never faults — with no registered record it is a
no-op, and an actionClicked event whose action id matches no button of the
registered record invokes no handler and leaves the registry unchanged. -/
theorem dispatch_missing_record_noop (reg : CallbackStore) (msg : FgMessage)
    (cbs : NotifCallbacks) (a : String) :
    (mapGet reg msg.tag = none → foregroundDispatch reg msg = (reg, [])) ∧
    (mapGet reg msg.tag = some cbs → msg.type = .actionClicked →
      msg.action = some a →
      (∀ bs, cbs.buttons = some bs → ∀ b ∈ bs, b.action ≠ a) →
      foregroundDispatch reg msg = (reg, [])) := by
  obtain ⟨mty, mtag, mact⟩ := msg
  constructor
  · intro h
    simp [foregroundDispatch, h]
  · intro h hty ha hb
    simp only at hty ha
    subst hty ha
    simp only [foregroundDispatch, h]
    cases hbs : cbs.buttons with
    | none => simp
    | some bs =>
      have hf : bs.find? (fun b => b.action == a) = none := by
        rw [List.find?_eq_none]
        intro b hmem
        simpa using hb bs hbs b hmem
      simp [hf]

/-- C4 witness. -/
theorem dispatch_missing_record_noop_w :
    foregroundDispatch [("t1", ⟨some [⟨"ok", some 3, none⟩], none, none⟩)]
        ⟨.actionClicked, "t1", some "zz"⟩ =
      ([("t1", ⟨some [⟨"ok", some 3, none⟩], none, none⟩)], []) ∧
    foregroundDispatch [] ⟨.clicked, "t1", none⟩ = ([], []) :=
  ⟨(dispatch_missing_record_noop _ _ ⟨some [⟨"ok", some 3, none⟩], none, none⟩ "zz").2
      (by decide) rfl rfl
      (by intro bs hbs b hbm
          cases hbs
          simp only [List.mem_singleton] at hbm
          subst hbm
          decide),
   (dispatch_missing_record_noop [] ⟨.clicked, "t1", none⟩ ⟨none, none, none⟩ "zz").1 rfl⟩

/-- C6: counterexample to the claim as stated.  On a plain denied outcome
(permission prompt resolves to "denied", no thrown fault) with a global
decline hook (id 1) and a global error hook (id 2) configured, the run
invokes the global error hook as well, so a denied request is not routed to
the decline hooks only. -/
theorem denied_fires_global_error_hook :
    requestNotifications ⟨false, none, some 1, some 2, false⟩ none none none
        ⟨true, .ok "denied"⟩ =
      .ok ([Effect.hookCall 1, Effect.hookCall 2], none) ∧
    Effect.hookCall 2 ∈ [Effect.hookCall 1, Effect.hookCall 2] :=
  ⟨rfl, by decide⟩

/-- C6 (amended): a denied request routes to the call-site decline hook and
to the global decline and global error hooks (the global error hook fires
for every outcome carrying an error, denials included); an unexpected fault
routes to the call-site error hook and to the global decline and global
error hooks; the call-site decline hook does not fire on faults and the
call-site error hook does not fire on denials. -/
theorem hook_routing_amended (s : Settings) (cbA cbD cbE : Option Nat)
    (env : NotifPermEnv) (p e : String) :
    (env.supported = true → env.permission = .ok p → p ≠ "granted" →
      requestNotifications s cbA cbD cbE env =
        .ok (showErrorEff s "Notification permission denied" ++ hookList cbD ++
               (hookList s.onDecline ++ hookList s.onError), none)) ∧
    (env.supported = true → env.permission = .error e →
      requestNotifications s cbA cbD cbE env =
        .ok (showErrorEff s ("Notification error: " ++ e) ++ hookList cbE ++
               (hookList s.onDecline ++ hookList s.onError), none)) := by
  obtain ⟨sup, perm⟩ := env
  constructor
  · intro hs hp hne
    simp only at hs hp
    subst hs hp
    simp [requestNotifications, handleResponseEffects, hne]
  · intro hs hp
    simp only at hs hp
    subst hs hp
    simp [requestNotifications, handleResponseEffects]

/-- C6 (amended) witness. -/
theorem hook_routing_amended_w :
    requestNotifications ⟨false, some 0, some 1, some 2, false⟩ (some 3) (some 4) (some 5)
        ⟨true, .ok "denied"⟩ =
      .ok ([Effect.hookCall 4, Effect.hookCall 1, Effect.hookCall 2], none) ∧
    requestNotifications ⟨false, some 0, some 1, some 2, false⟩ (some 3) (some 4) (some 5)
        ⟨true, .error "boom"⟩ =
      .ok ([Effect.hookCall 5, Effect.hookCall 1, Effect.hookCall 2], none) :=
  ⟨(hook_routing_amended ⟨false, some 0, some 1, some 2, false⟩ (some 3) (some 4) (some 5)
      ⟨true, .ok "denied"⟩ "denied" "boom").1 rfl rfl (by decide),
   (hook_routing_amended ⟨false, some 0, some 1, some 2, false⟩ (some 3) (some 4) (some 5)
      ⟨true, .error "boom"⟩ "denied" "boom").2 rfl rfl⟩

/-- C7: the mailto builder agrees with the spec-level construction
(percent-encoded cc/bcc/subject/body, empty fields omitted, joined with
`&`, `?` present iff at least one parameter survives), and the concrete
cases demanded by the spec hold exactly. -/
theorem mailto_builder_spec :
    (∀ p, buildMailto p = mailtoSpec p) ∧
    buildMailto { toAddr := "a@b.com", subject := "Hi" } = "mailto:a@b.com?subject=Hi" ∧
    buildMailto {} = "mailto:" ∧
    encodeURIComponent " " = "%20" := by
  refine ⟨?_, rfl, rfl, rfl⟩
  intro p
  by_cases h1 : p.cc = "" <;> by_cases h2 : p.bcc = "" <;>
    by_cases h3 : p.subject = "" <;> by_cases h4 : p.body = "" <;>
      simp [buildMailto, mailtoSpec, h1, h2, h3, h4]

/-- C8: each stop operation releases every track of the held stream and
clears the held reference, is a no-op when nothing is held, and running it
a second time changes nothing and stops nothing (idempotence). -/
theorem stop_operations_idempotent :
    (∀ ts m s, stopCamera ⟨some ts, m, s⟩ = (⟨none, m, s⟩, ts.map Effect.trackStop)) ∧
    (∀ m s, stopCamera ⟨none, m, s⟩ = (⟨none, m, s⟩, [])) ∧
    (∀ a, stopCamera (stopCamera a).1 = ((stopCamera a).1, [])) ∧
    (∀ c ts s, stopMicrophone ⟨c, some ts, s⟩ = (⟨c, none, s⟩, ts.map Effect.trackStop)) ∧
    (∀ c s, stopMicrophone ⟨c, none, s⟩ = (⟨c, none, s⟩, [])) ∧
    (∀ a, stopMicrophone (stopMicrophone a).1 = ((stopMicrophone a).1, [])) ∧
    (∀ c m ts, stopScreenCapture ⟨c, m, some ts⟩ = (⟨c, m, none⟩, ts.map Effect.trackStop)) ∧
    (∀ c m, stopScreenCapture ⟨c, m, none⟩ = (⟨c, m, none⟩, [])) ∧
    (∀ a, stopScreenCapture (stopScreenCapture a).1 = ((stopScreenCapture a).1, [])) := by
  refine ⟨fun ts m s => rfl, fun m s => rfl, ?_,
          fun c ts s => rfl, fun c s => rfl, ?_,
          fun c m ts => rfl, fun c m => rfl, ?_⟩ <;>
    · intro a
      obtain ⟨c, m, s⟩ := a
      first
      | cases c <;> rfl
      | cases m <;> rfl
      | cases s <;> rfl

/-- C9: when notification permission is not granted, `sendNotification`
returns `null` immediately, the state (registry included) is unchanged, and
the only effect is the optional error popup — no platform display call, no
postMessage, no registry mutation. -/
theorem send_denied_returns_null (st : FgState) (permission : String)
    (pf : NotifPlatform) (now : Nat) (title text : String)
    (attachment : Option String) (options : NotifOptions)
    (h : permission ≠ "granted") :
    sendNotification st permission pf now title text attachment options =
      .ok ⟨st, showErrorEff st.settings "Notification permission not granted", none⟩ ∧
    ∀ e ∈ showErrorEff st.settings "Notification permission not granted",
      ∃ m, e = Effect.showErrorPopup m := by
  have hb : (permission != "granted") = true := bne_iff_ne.mpr h
  constructor
  · simp [sendNotification, hb]
  · intro e he
    unfold showErrorEff at he
    split at he
    · simp only [List.mem_singleton] at he
      exact ⟨_, he⟩
    · simp at he

/-- C9 witness. -/
theorem send_denied_returns_null_w :
    sendNotification ⟨⟨true, none, none, none, false⟩, false, false, []⟩ "denied"
        ⟨.ok (), .ok (), .ok ()⟩ 0 "t" "m" none
        ⟨none, none, none, none, none, none, none, none, none, none, none⟩ =
      .ok ⟨⟨⟨true, none, none, none, false⟩, false, false, []⟩,
           [Effect.showErrorPopup "Notification permission not granted"], none⟩ ∧
    ∀ e ∈ [Effect.showErrorPopup "Notification permission not granted"],
      ∃ m, e = Effect.showErrorPopup m :=
  send_denied_returns_null ⟨⟨true, none, none, none, false⟩, false, false, []⟩ "denied"
    ⟨.ok (), .ok (), .ok ()⟩ 0 "t" "m" none
    ⟨none, none, none, none, none, none, none, none, none, none, none⟩ (by decide)

/-- C10: with buttons requested while the service worker is not in use, the
notification goes through the basic path with the buttons field removed:
the state (and thus the callback registry) is unchanged, no message is
posted to the background context, no service-worker display call happens,
and the platform display options carry neither buttons nor actions. -/
theorem buttons_without_sw_basic_path (st : FgState) (pf : NotifPlatform)
    (now : Nat) (title text : String) (attachment : Option String)
    (options : NotifOptions) (bs : List OptButton)
    (hbut : options.buttons = some bs) (hne : bs ≠ [])
    (hsw : st.settings.useServiceWorker = false) :
    ∃ r, sendNotification st "granted" pf now title text attachment options = .ok r ∧
      r.st = st ∧
      (∀ tg cb, Effect.postMessage tg cb ∉ r.effects) ∧
      (∀ tl o2, Effect.swShowNotification tl o2 ∉ r.effects) ∧
      Effect.basicNotification title
          (basicNotifOptions text attachment { options with buttons := none }) ∈ r.effects ∧
      (basicNotifOptions text attachment { options with buttons := none }).buttons = none ∧
      (basicNotifOptions text attachment { options with buttons := none }).actions = none := by
  have hlen : ((options.buttons.getD []).length != 0) = true := by
    rw [hbut]
    simpa [bne_iff_ne] using hne
  cases hpf : pf.basicNew with
  | ok u =>
    refine ⟨⟨st, [Effect.consoleWarn,
        Effect.basicNotification title
          (basicNotifOptions text attachment { options with buttons := none })],
        some .basicRet⟩, ?_, rfl, ?_, ?_, ?_, rfl, rfl⟩
    · simp [sendNotification, hlen, hsw, _sendBasicNotification, hpf]
    · intro tg cb
      simp
    · intro tl o2
      simp
    · simp
  | error e =>
    refine ⟨⟨st, Effect.consoleWarn ::
        ([Effect.basicNotification title
            (basicNotifOptions text attachment { options with buttons := none })] ++
          showErrorEff st.settings ("Failed to create notification: " ++ e) ++
          hookList options.onError),
        none⟩, ?_, rfl, ?_, ?_, ?_, rfl, rfl⟩
    · simp [sendNotification, hlen, hsw, _sendBasicNotification, hpf]
    · intro tg cb
      cases hsp : st.settings.showErrorPopup <;>
        cases hoe : options.onError <;>
          simp [showErrorEff, hookList, hsp, hoe]
    · intro tl o2
      cases hsp : st.settings.showErrorPopup <;>
        cases hoe : options.onError <;>
          simp [showErrorEff, hookList, hsp, hoe]
    · simp

/-- C10 witness. -/
theorem buttons_without_sw_basic_path_w :
    ∃ r, sendNotification ⟨⟨true, none, none, none, false⟩, false, false, []⟩ "granted"
        ⟨.ok (), .ok (), .ok ()⟩ 0 "t" "m" none
        ⟨none, none, none, none, none, none, none,
         some [⟨some "ok", none, none, none, some 7⟩], none, none, none⟩ = .ok r ∧
      r.st = ⟨⟨true, none, none, none, false⟩, false, false, []⟩ ∧
      (∀ tg cb, Effect.postMessage tg cb ∉ r.effects) ∧
      (∀ tl o2, Effect.swShowNotification tl o2 ∉ r.effects) ∧
      Effect.basicNotification "t"
          (basicNotifOptions "m" none
            { tag := none, badge := none, image := none, data := none
              requireInteraction := none, silent := none, vibrate := none
              buttons := none, onClick := none, onClose := none, onError := none }) ∈
        r.effects ∧
      (basicNotifOptions "m" none
          { tag := none, badge := none, image := none, data := none
            requireInteraction := none, silent := none, vibrate := none
            buttons := none, onClick := none, onClose := none, onError := none }).buttons =
        none ∧
      (basicNotifOptions "m" none
          { tag := none, badge := none, image := none, data := none
            requireInteraction := none, silent := none, vibrate := none
            buttons := none, onClick := none, onClose := none, onError := none }).actions =
        none :=
  buttons_without_sw_basic_path ⟨⟨true, none, none, none, false⟩, false, false, []⟩
    ⟨.ok (), .ok (), .ok ()⟩ 0 "t" "m" none
    ⟨none, none, none, none, none, none, none,
     some [⟨some "ok", none, none, none, some 7⟩], none, none, none⟩
    [⟨some "ok", none, none, none, some 7⟩] rfl (by decide) rfl

/-- The basic notification path always returns normally (try/catch at
requester.js:313-343 covers the only fallible call). -/
theorem basicSend_ok (st : FgState) (pf : NotifPlatform) (title text : String)
    (attachment : Option String) (options : NotifOptions) :
    ∃ r, _sendBasicNotification st pf title text attachment options = .ok r := by
  unfold _sendBasicNotification
  cases pf.basicNew <;> exact ⟨_, rfl⟩

/-- When `new Notification` throws, the basic path returns `null` and ends
with the call-site `onError` hook. -/
theorem basicSend_err (st : FgState) (pf : NotifPlatform) (title text : String)
    (attachment : Option String) (options : NotifOptions) (e : String)
    (h : pf.basicNew = .error e) :
    ∃ effs, _sendBasicNotification st pf title text attachment options =
      .ok ⟨st, effs ++ hookList options.onError, none⟩ := by
  unfold _sendBasicNotification
  rw [h]
  exact ⟨_, rfl⟩

/-- The service-worker notification path always returns normally. -/
theorem swSend_ok (st : FgState) (pf : NotifPlatform) (now : Nat)
    (title text : String) (attachment : Option String) (options : NotifOptions) :
    ∃ r, _sendServiceWorkerNotification st pf now title text attachment options = .ok r := by
  unfold _sendServiceWorkerNotification
  cases swNotifTry st pf now title text attachment options with
  | ok r => exact ⟨_, rfl⟩
  | error p =>
    obtain ⟨e, st1, effs⟩ := p
    exact ⟨_, rfl⟩

/-- When `showNotification` rejects, the service-worker try body throws. -/
theorem swTry_err (st : FgState) (pf : NotifPlatform) (now : Nat)
    (title text : String) (attachment : Option String) (options : NotifOptions)
    (es : String) (h : pf.swShow = .error es) :
    ∃ e st1 effs, swNotifTry st pf now title text attachment options =
      .error (e, st1, effs) := by
  simp only [swNotifTry]
  split
  · split
    · exact ⟨_, _, _, rfl⟩
    · cases pf.swPost with
      | error e => exact ⟨_, _, _, rfl⟩
      | ok u =>
        rw [h]
        exact ⟨_, _, _, rfl⟩
  · rw [h]
    exact ⟨_, _, _, rfl⟩

/-- When `showNotification` rejects, the service-worker path returns `null`
and ends with the call-site `onError` hook. -/
theorem swSend_err (st : FgState) (pf : NotifPlatform) (now : Nat)
    (title text : String) (attachment : Option String) (options : NotifOptions)
    (es : String) (h : pf.swShow = .error es) :
    ∃ st1 effs, _sendServiceWorkerNotification st pf now title text attachment options =
      .ok ⟨st1, effs ++ hookList options.onError, none⟩ := by
  obtain ⟨e, st1, effs, htry⟩ := swTry_err st pf now title text attachment options es h
  refine ⟨st1, effs ++ showErrorEff st1.settings ("Failed to create notification: " ++ e), ?_⟩
  unfold _sendServiceWorkerNotification
  rw [htry]

/-- `sendNotification` always returns normally. -/
theorem sendNotification_ok (st : FgState) (perm : String) (pf : NotifPlatform)
    (now : Nat) (title text : String) (attachment : Option String)
    (options : NotifOptions) :
    ∃ r, sendNotification st perm pf now title text attachment options = .ok r := by
  simp only [sendNotification]
  split
  · exact ⟨_, rfl⟩
  · split
    · obtain ⟨r, hr⟩ :=
        basicSend_ok st pf title text attachment { options with buttons := none }
      rw [hr]
      exact ⟨_, rfl⟩
    · split
      · exact swSend_ok st pf now title text attachment options
      · exact basicSend_ok st pf title text attachment options

/-- When every platform display call fails, `sendNotification` returns
`null` and, on the granted paths, fires the call-site `onError` hook. -/
theorem sendNotification_err_null (st : FgState) (perm : String)
    (pf : NotifPlatform) (now : Nat) (title text : String)
    (attachment : Option String) (options : NotifOptions) (es eb : String)
    (hs : pf.swShow = .error es) (hbn : pf.basicNew = .error eb) :
    ∃ r, sendNotification st perm pf now title text attachment options = .ok r ∧
      r.ret = none ∧
      (perm = "granted" → ∀ h, options.onError = some h →
        Effect.hookCall h ∈ r.effects) := by
  by_cases hp : perm = "granted"
  · subst hp
    simp only [sendNotification, bne_self_eq_false, Bool.false_eq_true, if_false]
    split
    · obtain ⟨effs, hbr⟩ :=
        basicSend_err st pf title text attachment { options with buttons := none } eb hbn
      rw [hbr]
      refine ⟨_, rfl, rfl, ?_⟩
      intro _ h hoe
      simp [hookList, hoe]
    · split
      · obtain ⟨st1, effs, hswr⟩ :=
          swSend_err st pf now title text attachment options es hs
        rw [hswr]
        refine ⟨_, rfl, rfl, ?_⟩
        intro _ h hoe
        simp [hookList, hoe]
      · obtain ⟨effs, hbr⟩ := basicSend_err st pf title text attachment options eb hbn
        rw [hbr]
        refine ⟨_, rfl, rfl, ?_⟩
        intro _ h hoe
        simp [hookList, hoe]
  · have hb : (perm != "granted") = true := bne_iff_ne.mpr hp
    refine ⟨⟨st, showErrorEff st.settings "Notification permission not granted", none⟩,
            ?_, rfl, ?_⟩
    · simp [sendNotification, hb]
    · intro hg
      exact absurd hg hp

/-- `requestBluetooth` always returns normally. -/
theorem requestBluetooth_ok (s : Settings) (cbA cbD : Option Nat) (env : BtEnv) :
    ∃ r, requestBluetooth s cbA cbD env = .ok r := by
  unfold requestBluetooth
  cases btTry s cbA cbD env with
  | ok r => exact ⟨_, rfl⟩
  | error e => exact ⟨_, rfl⟩

/-- When the device request throws past the prechecks, `requestBluetooth`
returns `null` and fires the call-site decline hook plus the global decline
and error hooks. -/
theorem requestBluetooth_err (s : Settings) (cbA cbD : Option Nat) (env : BtEnv)
    (e : String) (h1 : env.bluetoothSupported = true)
    (h2 : (env.isHttps || env.isLocalhost) = true)
    (h3 : env.requestDevice = .error e) :
    ∃ effs, requestBluetooth s cbA cbD env = .ok (effs, none) ∧
      (∀ h, cbD = some h → Effect.hookCall h ∈ effs) ∧
      (∀ h, s.onDecline = some h → Effect.hookCall h ∈ effs) ∧
      (∀ h, s.onError = some h → Effect.hookCall h ∈ effs) := by
  have h2' : (!env.isHttps && !env.isLocalhost) = false := by
    cases ha : env.isHttps <;> cases hb : env.isLocalhost <;> simp_all
  have htry : btTry s cbA cbD env = .error e := by
    simp only [btTry, h1, h2', h3]
    rfl
  unfold requestBluetooth
  rw [htry]
  refine ⟨_, rfl, ?_, ?_, ?_⟩ <;>
  · intro h hh
    cases hsp : s.showErrorPopup <;>
      simp [hookList, handleResponseEffects, hh, showErrorEff, hsp]

/-- C5: platform rejections and exceptions never escape a capability wrapper
as a thrown fault — `sendNotification` and `requestBluetooth` always return
normally, and when the underlying platform call fails they return the null
sentinel and route the failure through the decline/error hook channel. -/
theorem capability_wrappers_never_throw :
    (∀ st perm pf now title text attachment options, ∃ r,
        sendNotification st perm pf now title text attachment options = .ok r) ∧
    (∀ st perm pf now title text attachment options es eb,
        pf.swShow = .error es → pf.basicNew = .error eb → ∃ r,
        sendNotification st perm pf now title text attachment options = .ok r ∧
          r.ret = none ∧
          (perm = "granted" → ∀ h, options.onError = some h →
            Effect.hookCall h ∈ r.effects)) ∧
    (∀ s cbA cbD env, ∃ r, requestBluetooth s cbA cbD env = .ok r) ∧
    (∀ s cbA cbD env e, env.bluetoothSupported = true →
        (env.isHttps || env.isLocalhost) = true → env.requestDevice = .error e →
        ∃ effs, requestBluetooth s cbA cbD env = .ok (effs, none) ∧
          (∀ h, cbD = some h → Effect.hookCall h ∈ effs) ∧
          (∀ h, s.onDecline = some h → Effect.hookCall h ∈ effs) ∧
          (∀ h, s.onError = some h → Effect.hookCall h ∈ effs)) :=
  ⟨sendNotification_ok,
   fun st perm pf now title text attachment options es eb hs hbn =>
     sendNotification_err_null st perm pf now title text attachment options es eb hs hbn,
   requestBluetooth_ok,
   fun s cbA cbD env e h1 h2 h3 => requestBluetooth_err s cbA cbD env e h1 h2 h3⟩

/-- C5 witness. -/
theorem capability_wrappers_never_throw_w :
    (∃ r, sendNotification ⟨⟨false, none, none, none, false⟩, false, false, []⟩ "granted"
        ⟨.ok (), .error "showfail", .error "newfail"⟩ 0 "t" "m" none
        ⟨none, none, none, none, none, none, none, none, none, none, some 11⟩ = .ok r ∧
      r.ret = none ∧
      ("granted" = "granted" → ∀ h, (some 11 : Option Nat) = some h →
        Effect.hookCall h ∈ r.effects)) ∧
    (∃ effs, requestBluetooth ⟨false, none, some 21, some 22, false⟩ none (some 23)
        ⟨true, true, false, .error "user cancelled"⟩ = .ok (effs, none) ∧
      (∀ h, (some 23 : Option Nat) = some h → Effect.hookCall h ∈ effs) ∧
      (∀ h, (some 21 : Option Nat) = some h → Effect.hookCall h ∈ effs) ∧
      (∀ h, (some 22 : Option Nat) = some h → Effect.hookCall h ∈ effs)) :=
  ⟨capability_wrappers_never_throw.2.1
      ⟨⟨false, none, none, none, false⟩, false, false, []⟩ "granted"
      ⟨.ok (), .error "showfail", .error "newfail"⟩ 0 "t" "m" none
      ⟨none, none, none, none, none, none, none, none, none, none, some 11⟩
      "showfail" "newfail" rfl rfl,
   capability_wrappers_never_throw.2.2.2
      ⟨false, none, some 21, some 22, false⟩ none (some 23)
      ⟨true, true, false, .error "user cancelled"⟩ "user cancelled" rfl rfl rfl⟩

end Requester
